import Mathlib

/-!
Shallow embedding of the turn-based battle engine of the Python-Game
repository, centred on `src/src/game/managers/battle_manager.py`
(class `BattleManager`) and `src/hero.py` (class `Hero`).

Modelling conventions:
- Python machine integers are unbounded, so all numeric fields are `Int`
  (cooldowns, which the spec describes as floor-zero counters, are `Nat`).
- The battle manager, the hero, the monster and the single button-manager
  object form one explicit state record; every Python method becomes a
  pure function from state to state (methods with results return pairs).
- The Python expression `self.monster.is_alive()` with `self.monster is None`
  raises `AttributeError`; the corresponding embedded operation returns
  `Except.error ()` in that situation and `Except.ok` otherwise.
- Modules imported by the battle manager that are not part of the sources
  (the entities package, the button manager, the combatant base class) are
  modelled from the spec; each such definition carries a doc comment
  starting with `Modelled from the spec:`.
-/

namespace Game

/-- Enum `TurnState` of battle_manager.py. -/
inductive TurnState where
  | HERO_TURN
  | MONSTER_TURN
deriving DecidableEq

/-- Enum `BattleState` of battle_manager.py. -/
inductive BattleState where
  | HOME
  | USE_ITEM
  | USE_ABILITY
  | RUN_AWAY
  | MONSTER_DEFEATED
deriving DecidableEq

/-- Modelled from the spec: the Effect value record produced by an ability
use (ability.py is not under src/): damage, healing, block amounts and the
boolean miss/critical flags. -/
structure Effect where
  damage : Int
  healing : Int
  block : Int
  missed : Bool
  critical : Bool
deriving DecidableEq

/-- Modelled from the spec: an Ability (ability.py is not under src/) is
identified by name and has an energy cost and a floor-zero cooldown counter.
The Effect a use produces is modelled as a fixed outcome parameter of the
ability, since the spec treats the effect shape as data. -/
structure Ability where
  name : String
  energy_cost : Int
  current_cooldown : Nat
  effect : Effect
deriving DecidableEq

/-- Modelled from the spec: a Monster (monster.py is not under src/) is a
combatant with health, a damage stat and experience/gold rewards. -/
structure Monster where
  name : String
  health : Int
  damage : Int
  experience : Int
  gold : Int
deriving DecidableEq

/-- Modelled from the spec: a combatant is alive iff its current health is
strictly positive. -/
def Monster.is_alive (m : Monster) : Bool := m.health > 0

/-- Modelled from the spec: `take_damage(amount)` of the combatant model
subtracts the amount from current health. -/
def Monster.take_damage (m : Monster) (d : Int) : Monster :=
  { m with health := m.health - d }

/-- Hero state, from class `Hero` of hero.py (name, hit points, level,
experience, gold, potion bag and the pending potion bonuses), extended with
the energy/ability fields the battle manager consumes; the spec lists those
under the combatant model because the entities variant of the hero is not
under src/. The potion bag dictionary is an association list with unique
keys, in insertion order. -/
structure Hero where
  name : String
  max_hp : Int
  current_hp : Int
  level : Int
  experience : Int
  gold : Int
  potion_bag : List (String × Int)
  potion_damage : Int
  potion_block : Int
  energy : Int
  max_energy : Int
  abilities : List Ability
deriving DecidableEq

/-- Modelled from the spec: a combatant is alive iff its current health is
strictly positive. -/
def Hero.is_alive (h : Hero) : Bool := h.current_hp > 0

/-- Modelled from the spec: `take_damage(amount)` of the combatant model
subtracts the amount from current health. -/
def Hero.take_damage (h : Hero) (d : Int) : Hero :=
  { h with current_hp := h.current_hp - d }

/-- Dictionary lookup in the potion bag (Python `bag[name]` /
`name in bag`, returning `none` when the key is absent). -/
def bagLookup : List (String × Int) → String → Option Int
  | [], _ => none
  | p :: rest, n => if p.1 = n then some p.2 else bagLookup rest n

/-- Dictionary update `bag[name] -= 1` on the association list. -/
def bagDec : List (String × Int) → String → List (String × Int)
  | [], _ => []
  | p :: rest, n => if p.1 = n then (p.1, p.2 - 1) :: rest else p :: bagDec rest n

/-- Hero.has_potions of hero.py: some potion count is positive. -/
def Hero.has_potions (h : Hero) : Bool := h.potion_bag.any (fun p => p.2 > 0)

/-- Hero.use_potion of hero.py: when the named potion is present with a
positive count, apply its effect (health capped at max, damage/block set a
pending bonus) and decrement the count; otherwise only print a console
message and change nothing. -/
def Hero.use_potion (h : Hero) (potion_name : String) : Hero :=
  match bagLookup h.potion_bag potion_name with
  | some c =>
    if c > 0 then
      let h1 :=
        if potion_name = "Health Potion" then
          let hp := h.current_hp + 5
          { h with current_hp := if hp > h.max_hp then h.max_hp else hp }
        else if potion_name = "Damage Potion" then { h with potion_damage := 3 }
        else if potion_name = "Block Potion" then { h with potion_block := 2 }
        else h
      { h1 with potion_bag := bagDec h1.potion_bag potion_name }
    else h
  | none => h

/-- Hero.level_up of hero.py: gain 5 current hit points, raise max to match
when exceeded, and increment the level. -/
def Hero.level_up (h : Hero) : Hero :=
  let hp := h.current_hp + 5
  { h with current_hp := hp
         , max_hp := if hp > h.max_hp then hp else h.max_hp
         , level := h.level + 1 }

/-- Hero.gain_experience of hero.py: add the experience; at 10 times the
level, reset experience to zero and level up. -/
def Hero.gain_experience (h : Hero) (e : Int) : Hero :=
  let h1 := { h with experience := h.experience + e }
  if h1.experience ≥ 10 * h1.level then
    Hero.level_up { h1 with experience := 0 }
  else h1

/-- Hero.add_gold of hero.py. -/
def Hero.add_gold (h : Hero) (amount : Int) : Hero :=
  { h with gold := h.gold + amount }

/-- Modelled from the spec: `rest()` of the combatant model restores the
hero's energy (the exact rule is owned by the missing entities hero; we
restore to full). -/
def Hero.rest (h : Hero) : Hero := { h with energy := h.max_energy }

/-- Modelled from the spec: `update_abilities()` of the combatant model
ticks every ability cooldown down once, with floor zero. -/
def Hero.update_abilities (h : Hero) : Hero :=
  { h with abilities :=
      h.abilities.map (fun a => { a with current_cooldown := a.current_cooldown - 1 }) }

/-- Modelled from the spec: the usability predicate of an ability is
`current_cooldown == 0` (the hero argument mirrors the Python signature). -/
def Ability.can_use (a : Ability) (_h : Hero) : Bool := a.current_cooldown == 0

/-- Modelled from the spec: using an ability applies its effect — the
monster takes the damage unless the use missed, healing raises the hero's
health capped at max, block adds to the pending block — and returns the
effect record for message selection. -/
def Ability.use (a : Ability) (h : Hero) (m : Monster) : Hero × Monster × Effect :=
  let eff := a.effect
  let m1 := if eff.missed then m else m.take_damage eff.damage
  let h1 := { h with
    current_hp := if eff.healing > 0 then
        (if h.current_hp + eff.healing > h.max_hp then h.max_hp else h.current_hp + eff.healing)
      else h.current_hp
    , potion_block := h.potion_block + eff.block }
  (h1, m1, eff)

/-- First ability with the given name in the hero's ordered ability list
(the linear search of BattleManager.use_ability). -/
def findAbility : List Ability → String → Option Ability
  | [], _ => none
  | a :: rest, n => if a.name = n then some a else findAbility rest n

/-- Modelled from the spec: a UI button exposes lock/unlock/show/hide
(button classes are not under src/). -/
structure Button where
  locked : Bool
  visible : Bool
deriving DecidableEq

/-- Button.lock. -/
def Button.lock (b : Button) : Button := { b with locked := true }

/-- Button.unlock. -/
def Button.unlock (b : Button) : Button := { b with locked := false }

/-- Button.show (named showButton because `show` is a Lean keyword). -/
def Button.showButton (b : Button) : Button := { b with visible := true }

/-- Button.hide. -/
def Button.hideButton (b : Button) : Button := { b with visible := false }

/-- Modelled from the spec: a dynamically created hero-ability button,
carrying the text used to match it against the hero's abilities. -/
structure AbilityButton where
  text : String
  locked : Bool
deriving DecidableEq

/-- Modelled from the spec: the button manager (button_manager.py is not
under src/) holds the fixed named set of battle-screen buttons the manager
addresses through `get_button(GameState.BATTLE, name)` — Ability, Rest,
Potion, Flee, Continue, Retreat and the three potion-selection buttons —
plus the dynamically managed hero-ability button group. The name loops of
the Python code are unrolled over the record fields. -/
structure ButtonManager where
  abilityB : Button
  restB : Button
  potionB : Button
  fleeB : Button
  continueB : Button
  retreatB : Button
  healthPotionB : Button
  damagePotionB : Button
  blockPotionB : Button
  hero_ability_buttons : List AbilityButton
deriving DecidableEq

/-- State of class `BattleManager` of battle_manager.py, combined with the
state of the single button-manager object the game owns. In Python the
manager stores a reference to that object after the first
`update_button_states` call; since there is exactly one button manager, the
reference is modelled as the flag `registered` and the object state as the
field `buttons` (the tooltip field of the Python class is pure rendering
data read by no claim and is omitted). -/
structure BattleManager where
  hero : Hero
  battle_log : List String
  monster : Option Monster
  state : BattleState
  turn : TurnState
  showing_potions : Bool
  registered : Bool
  buttons : ButtonManager
deriving DecidableEq

/-- BattleManager.__init__: no monster, HOME state, hero turn, potion
buttons not showing, no stored button-manager reference. -/
def initBM (h : Hero) (log : List String) (b : ButtonManager) : BattleManager :=
  { hero := h, battle_log := log, monster := none, state := BattleState.HOME
  , turn := TurnState.HERO_TURN, showing_potions := false
  , registered := false, buttons := b }

/-- Truth of the Python expression `self.monster and self.monster.is_alive()`. -/
def monsterAlive (s : BattleManager) : Bool :=
  match s.monster with
  | some m => m.is_alive
  | none => false

/-- BattleManager.start_battle: store the monster, reset to HOME and the
hero's turn, and log the arrival line. -/
def start_battle (m : Monster) (s : BattleManager) : BattleManager :=
  let mn := m.name
  { s with monster := some m
         , state := BattleState.HOME
         , turn := TurnState.HERO_TURN
         , battle_log := s.battle_log ++ [s!"A {mn} appears!"] }

/-- BattleManager.handle_monster_defeat: log the two defeat lines, grant
experience then gold to the hero, and enter MONSTER_DEFEATED. -/
def handle_monster_defeat (s : BattleManager) : BattleManager :=
  match s.monster with
  | none => s
  | some m =>
    let mn := m.name
    let hn := s.hero.name
    let me := m.experience
    let mg := m.gold
    { s with battle_log := s.battle_log ++
        [ s!"{mn} has been defeated!"
        , s!"{hn} gains {me} experience and {mg} gold." ]
           , hero := (s.hero.gain_experience m.experience).add_gold m.gold
           , state := BattleState.MONSTER_DEFEATED }

/-- BattleManager.update_battle_state: outside MONSTER_DEFEATED, report
monster defeat (granting rewards) or hero defeat; note that the Python code
evaluates `self.monster.is_alive()` without a None guard, so a missing
monster with a living hero raises (modelled as `Except.error`). -/
def update_battle_state (s : BattleManager) : Except Unit (Option Bool × BattleManager) :=
  if s.state = BattleState.MONSTER_DEFEATED then Except.ok (none, s)
  else if s.hero.is_alive then
    match s.monster with
    | none => Except.error ()
    | some m =>
      if m.is_alive then Except.ok (none, s)
      else Except.ok (some true, handle_monster_defeat s)
  else Except.ok (some false, s)

/-- BattleManager.handle_monster_attack: on the monster's turn with a live
monster, deal `max(0, monster.damage - hero.potion_block)` to the hero, log
the block/attack lines, clear the pending block and return the turn to the
hero. -/
def handle_monster_attack (s : BattleManager) : BattleManager :=
  if s.turn ≠ TurnState.MONSTER_TURN then s
  else match s.monster with
  | none => s
  | some m =>
    if m.is_alive then
      let damage := max 0 (m.damage - s.hero.potion_block)
      let hero1 := s.hero.take_damage damage
      let hn := s.hero.name
      let mn := m.name
      let pb := s.hero.potion_block
      let msgs : List String :=
        if s.hero.potion_block > 0 then
          [ s!"{hn} blocks {pb} damage!"
          , s!"{mn} attacks {hn} for {damage} damage." ]
        else
          [ s!"{mn} attacks {hn} for {damage} damage." ]
      { s with hero := { hero1 with potion_block := 0 }
             , battle_log := s.battle_log ++ msgs
             , turn := TurnState.HERO_TURN }
    else s

/-- BattleManager.start_monster_turn: delegate to handle_monster_attack
when a live monster is present. -/
def start_monster_turn (s : BattleManager) : BattleManager :=
  if monsterAlive s then handle_monster_attack s else s

/-- BattleManager._toggle_potion_buttons: record visibility and show or
hide the three potion-selection buttons. -/
def toggle_potion_buttons (s : BattleManager) (sh : Bool) : BattleManager :=
  let f : Button → Button := fun b => if sh then b.showButton else b.hideButton
  { s with showing_potions := sh
         , buttons := { s.buttons with
             healthPotionB := f s.buttons.healthPotionB
           , damagePotionB := f s.buttons.damagePotionB
           , blockPotionB := f s.buttons.blockPotionB } }

/-- BattleManager._update_potion_button_states: unlock each potion-selection
button whose inventory count is positive, lock the others. -/
def update_potion_button_states (s : BattleManager) : BattleManager :=
  let g : String → Button → Button := fun n b =>
    if (bagLookup s.hero.potion_bag n).getD 0 > 0 then b.unlock else b.lock
  { s with buttons := { s.buttons with
      healthPotionB := g "Health Potion" s.buttons.healthPotionB
    , damagePotionB := g "Damage Potion" s.buttons.damagePotionB
    , blockPotionB := g "Block Potion" s.buttons.blockPotionB } }

/-- BattleManager._update_ability_button_states: lock each hero-ability
button whose first matching ability is on cooldown or too expensive,
unlock the others. -/
def update_ability_button_states (s : BattleManager) : BattleManager :=
  { s with buttons := { s.buttons with
      hero_ability_buttons := s.buttons.hero_ability_buttons.map (fun b =>
        match findAbility s.hero.abilities b.text with
        | some a =>
          if a.current_cooldown > 0 ∨ s.hero.energy < a.energy_cost then
            { b with locked := true }
          else { b with locked := false }
        | none => b) } }

/-- BattleManager._toggle_ability_buttons: clear the hero-ability button
group; when showing, recreate one button per hero ability and refresh the
lock states. -/
def toggle_ability_buttons (s : BattleManager) (sh : Bool) : BattleManager :=
  let s1 := { s with buttons := { s.buttons with hero_ability_buttons := [] } }
  if sh then
    update_ability_button_states
      { s1 with buttons := { s1.buttons with
          hero_ability_buttons := s.hero.abilities.map (fun a =>
            { text := a.name, locked := false }) } }
  else s1

/-- BattleManager.update_button_states: store the button-manager reference,
then fully recompute button lock/visibility from `state`, `turn`, the hero
inventory and the ability cooldowns; during the monster's turn this also
calls start_monster_turn. -/
def update_button_states (s : BattleManager) : BattleManager :=
  let s0 := { s with registered := true }
  if s0.state = BattleState.MONSTER_DEFEATED then
    let s1 := { s0 with buttons := { s0.buttons with
        abilityB := s0.buttons.abilityB.lock
      , restB := s0.buttons.restB.lock
      , potionB := s0.buttons.potionB.lock
      , fleeB := s0.buttons.fleeB.lock
      , continueB := s0.buttons.continueB.unlock
      , retreatB := s0.buttons.retreatB.unlock } }
    toggle_ability_buttons (toggle_potion_buttons s1 false) false
  else
    let s1 := { s0 with buttons := { s0.buttons with
        continueB := s0.buttons.continueB.lock.hideButton
      , retreatB := s0.buttons.retreatB.lock.hideButton } }
    if s1.turn = TurnState.MONSTER_TURN then
      let s2 := { s1 with buttons := { s1.buttons with
          abilityB := s1.buttons.abilityB.lock
        , restB := s1.buttons.restB.lock
        , potionB := s1.buttons.potionB.lock
        , fleeB := s1.buttons.fleeB.lock } }
      start_monster_turn (toggle_ability_buttons (toggle_potion_buttons s2 false) false)
    else
      match s1.state with
      | BattleState.HOME =>
        let s2 := { s1 with buttons := { s1.buttons with
            abilityB := s1.buttons.abilityB.unlock
          , restB := s1.buttons.restB.unlock
          , fleeB := s1.buttons.fleeB.unlock
          , potionB := if s1.hero.has_potions then s1.buttons.potionB.unlock
                       else s1.buttons.potionB.lock } }
        toggle_ability_buttons (toggle_potion_buttons s2 false) false
      | BattleState.USE_ABILITY =>
        let s2 := { s1 with buttons := { s1.buttons with
            restB := s1.buttons.restB.lock
          , potionB := s1.buttons.potionB.lock
          , fleeB := s1.buttons.fleeB.lock } }
        toggle_ability_buttons (toggle_potion_buttons s2 false) true
      | BattleState.USE_ITEM =>
        let s2 := { s1 with buttons := { s1.buttons with
            abilityB := s1.buttons.abilityB.lock
          , restB := s1.buttons.restB.lock
          , fleeB := s1.buttons.fleeB.lock } }
        toggle_ability_buttons (toggle_potion_buttons s2 true) false
      | _ => s1

/-- BattleManager.use_ability: guarded by the hero's turn, the USE_ABILITY
sub-state and a stored button-manager reference; with a live monster, the
first ability matching the name is checked for cooldown then energy (each
failure only logs), then the ability resolves: effect applied, energy
deducted, one effect-shaped message logged, ability buttons hidden,
cooldowns ticked, state back to HOME, turn handed to the monster and
resolved at once if the monster survived. -/
def use_ability (ability_name : String) (s : BattleManager) : BattleManager :=
  if s.turn ≠ TurnState.HERO_TURN ∨ s.state ≠ BattleState.USE_ABILITY ∨
     s.registered = false then s
  else match s.monster with
  | none => s
  | some m =>
    if ¬ m.is_alive then s
    else
      let hn := s.hero.name
      match findAbility s.hero.abilities ability_name with
      | none =>
        { s with battle_log := s.battle_log ++ [s!"{hn} doesn\x27t know {ability_name}!"] }
      | some a =>
        if ¬ a.can_use s.hero then
          { s with battle_log := s.battle_log ++ [s!"{ability_name} is still on cooldown!"] }
        else if s.hero.energy < a.energy_cost then
          { s with battle_log := s.battle_log ++ [s!"Not enough energy to use {ability_name}!"] }
        else
          let r := a.use s.hero m
          let h1 := { r.1 with energy := r.1.energy - a.energy_cost }
          let m1 := r.2.1
          let eff := r.2.2
          let ed := eff.damage
          let eh := eff.healing
          let eb := eff.block
          let msgs : List String :=
            if eff.missed then [s!"{hn}\x27s {ability_name} missed!"]
            else if eff.critical then
              [s!"{hn}\x27s {ability_name} landed a critical hit for {ed} damage!"]
            else if eff.damage > 0 then
              [s!"{hn} used {ability_name} dealing {ed} damage!"]
            else if eff.healing > 0 then
              [s!"{hn} used {ability_name} restoring {eh} health!"]
            else if eff.block > 0 then
              [s!"{hn} used {ability_name} gaining {eb} block!"]
            else []
          let s1 := { s with hero := h1, monster := some m1
                           , battle_log := s.battle_log ++ msgs }
          let s2 := toggle_ability_buttons s1 false
          let s3 := { s2 with hero := s2.hero.update_abilities }
          let s4 := { s3 with state := BattleState.HOME, turn := TurnState.MONSTER_TURN }
          if m1.is_alive then start_monster_turn s4 else s4

/-- Truth of the Python expression `if ability_name:` on an optional string
argument (None and the empty string are falsy). -/
def truthyName : Option String → Bool
  | none => false
  | some n => n ≠ ""

/-- BattleManager.handle_ability: guarded by the hero's turn and a stored
button-manager reference; with a (truthy) name it delegates to use_ability,
otherwise it toggles the ability submenu open or closed. -/
def handle_ability (ability_name : Option String) (s : BattleManager) : BattleManager :=
  if s.turn ≠ TurnState.HERO_TURN ∨ s.registered = false then s
  else if truthyName ability_name then use_ability (ability_name.getD "") s
  else if s.state = BattleState.USE_ABILITY then
    toggle_ability_buttons { s with state := BattleState.HOME } false
  else
    update_ability_button_states
      (toggle_ability_buttons { s with state := BattleState.USE_ABILITY } true)

/-- BattleManager.handle_rest: guarded by the hero's turn; rest the hero,
log it, return to HOME, hand the turn to the monster and resolve it at once
if a live monster is present. -/
def handle_rest (s : BattleManager) : BattleManager :=
  if s.turn ≠ TurnState.HERO_TURN then s
  else
    let hn := s.hero.name
    let s1 := { s with hero := s.hero.rest
                     , battle_log := s.battle_log ++ [s!"{hn} rests to restore energy."]
                     , state := BattleState.HOME
                     , turn := TurnState.MONSTER_TURN }
    if monsterAlive s1 then start_monster_turn s1 else s1

/-- BattleManager.handle_use_potion: guarded by the hero's turn and a
stored button-manager reference; toggles the potion submenu open or closed
without consuming the turn. -/
def handle_use_potion (s : BattleManager) : BattleManager :=
  if s.turn ≠ TurnState.HERO_TURN ∨ s.registered = false then s
  else if s.state = BattleState.USE_ITEM then
    toggle_potion_buttons { s with state := BattleState.HOME } false
  else
    update_potion_button_states
      (toggle_potion_buttons { s with state := BattleState.USE_ITEM } true)

/-- BattleManager.use_potion: guarded by the hero's turn, the USE_ITEM
sub-state and a stored button-manager reference; applies the hero's
use_potion, logs the usage line unconditionally, hides the potion buttons,
returns to HOME, hands the turn to the monster and resolves it at once if a
live monster is present. -/
def use_potion (potion_name : String) (s : BattleManager) : BattleManager :=
  if s.turn ≠ TurnState.HERO_TURN ∨ s.state ≠ BattleState.USE_ITEM ∨
     s.registered = false then s
  else
    let hn := s.hero.name
    let s1 := { s with hero := s.hero.use_potion potion_name }
    let s2 := { s1 with battle_log := s1.battle_log ++ [s!"{hn} used a {potion_name}!"] }
    let s3 := toggle_potion_buttons s2 false
    let s4 := { s3 with state := BattleState.HOME, turn := TurnState.MONSTER_TURN }
    if monsterAlive s4 then start_monster_turn s4 else s4

/-- BattleManager.handle_flee: on the hero's turn, enter RUN_AWAY and
report success; otherwise report failure and change nothing. -/
def handle_flee (s : BattleManager) : Bool × BattleManager :=
  if s.turn ≠ TurnState.HERO_TURN then (false, s)
  else (true, { s with state := BattleState.RUN_AWAY })

/-- Result state of one update_battle_state poll, discarding the tri-state
result; a raising poll leaves the manager unchanged (the Python exception
propagates before any mutation). -/
def updPoll (s : BattleManager) : BattleManager :=
  match update_battle_state s with
  | Except.ok r => r.2
  | Except.error _ => s

/-- Concrete sample ability: a plain 1-damage attack, off cooldown. -/
def slashW : Ability :=
  { name := "Slash", energy_cost := 1, current_cooldown := 0
  , effect := { damage := 1, healing := 0, block := 0, missed := false, critical := false } }

/-- Concrete sample ability on cooldown, matching the Fireball scenario of
the spec (cooldown 2, expensive). -/
def fireballW : Ability :=
  { name := "Fireball", energy_cost := 10, current_cooldown := 2
  , effect := { damage := 4, healing := 0, block := 0, missed := false, critical := false } }

/-- Concrete sample hero with the initial potion bag of hero.py. -/
def heroW : Hero :=
  { name := "Rowan", max_hp := 10, current_hp := 10, level := 1, experience := 0
  , gold := 50
  , potion_bag := [("Health Potion", 2), ("Damage Potion", 1), ("Block Potion", 1)]
  , potion_damage := 0, potion_block := 0, energy := 5, max_energy := 5
  , abilities := [slashW, fireballW] }

/-- Concrete sample monster with a single hit point. -/
def goblinW : Monster :=
  { name := "Goblin", health := 1, damage := 2, experience := 5, gold := 3 }

/-- Concrete sample monster that hits for 5. -/
def ogreW : Monster :=
  { name := "Ogre", health := 8, damage := 5, experience := 9, gold := 7 }

/-- Concrete all-unlocked, all-visible button. -/
def buttonW : Button := { locked := false, visible := true }

/-- Concrete button-manager state. -/
def bmW : ButtonManager :=
  { abilityB := buttonW, restB := buttonW, potionB := buttonW, fleeB := buttonW
  , continueB := buttonW, retreatB := buttonW, healthPotionB := buttonW
  , damagePotionB := buttonW, blockPotionB := buttonW
  , hero_ability_buttons := [] }

/-- Concrete state on the monster's turn with a live ogre. -/
def stMT : BattleManager :=
  { initBM heroW [] bmW with monster := some ogreW, turn := TurnState.MONSTER_TURN }

/-- Concrete hero-turn state in the ability submenu against a live ogre. -/
def stUA : BattleManager :=
  { initBM heroW [] bmW with
    monster := some ogreW
    state := BattleState.USE_ABILITY
    registered := true }

/-- Concrete hero-turn state in the ability submenu against the one-hit-point
goblin, from which Slash is a killing blow. -/
def stKill : BattleManager :=
  { initBM heroW [] bmW with
    monster := some goblinW
    state := BattleState.USE_ABILITY
    registered := true }

/-- Concrete hero whose health-potion slot is empty. -/
def heroEmptyW : Hero :=
  { heroW with potion_bag :=
      [("Health Potion", 0), ("Damage Potion", 1), ("Block Potion", 1)] }

/-- Concrete hero-turn state in the potion submenu with an empty
health-potion slot, against a live ogre. -/
def stEmptyPotion : BattleManager :=
  { initBM heroEmptyW [] bmW with
    monster := some ogreW
    state := BattleState.USE_ITEM
    registered := true }

/-- Concrete state holding an already-dead goblin, before any defeat poll. -/
def stDead : BattleManager :=
  { initBM heroW [] bmW with monster := some { goblinW with health := 0 } }

/-- Concrete state reached by playing a full victorious encounter: start a
battle against the goblin, refresh buttons (registering the button
manager), open the ability submenu, kill the goblin with Slash, then poll
update_battle_state, which detects the defeat. -/
def stDefeated : BattleManager :=
  updPoll (use_ability "Slash"
    (handle_ability none
      (update_button_states (start_battle goblinW (initBM heroW [] bmW)))))

/-- Invariant of states reachable through the battle-manager API, backing
the terminality of MONSTER_DEFEATED: a defeated state always stores a dead
monster, and a stored dead monster pins the turn at MONSTER_TURN (the
killing ability handed the turn over, and nothing returns it to the hero
while the monster stays dead). -/
def BMInv (s : BattleManager) : Prop :=
  (s.state = BattleState.MONSTER_DEFEATED →
      monsterAlive s = false ∧ s.monster ≠ none) ∧
  (∀ m, s.monster = some m → m.is_alive = false → s.turn = TurnState.MONSTER_TURN)

/-- Reachability through the public battle-manager API from a freshly
constructed manager; start_battle is the start of a fresh encounter, so it
is invoked with a living monster. -/
inductive Reachable : BattleManager → Prop where
  | init (h : Hero) (log : List String) (b : ButtonManager) :
      Reachable (initBM h log b)
  | step_start_battle {s : BattleManager} (m : Monster) (hm : m.is_alive = true) :
      Reachable s → Reachable (start_battle m s)
  | step_poll {s : BattleManager} : Reachable s → Reachable (updPoll s)
  | step_update_buttons {s : BattleManager} :
      Reachable s → Reachable (update_button_states s)
  | step_handle_ability {s : BattleManager} (n : Option String) :
      Reachable s → Reachable (handle_ability n s)
  | step_handle_rest {s : BattleManager} : Reachable s → Reachable (handle_rest s)
  | step_handle_use_potion {s : BattleManager} :
      Reachable s → Reachable (handle_use_potion s)
  | step_use_potion {s : BattleManager} (n : String) :
      Reachable s → Reachable (use_potion n s)
  | step_use_ability {s : BattleManager} (n : String) :
      Reachable s → Reachable (use_ability n s)
  | step_handle_flee {s : BattleManager} : Reachable s → Reachable (handle_flee s).2
  | step_monster_attack {s : BattleManager} :
      Reachable s → Reachable (handle_monster_attack s)

/-- Frame of handle_monster_attack: it can only touch the hero's hit points
and pending block, the battle log and the turn. -/
theorem handle_monster_attack_frame (s : BattleManager) :
    (handle_monster_attack s).state = s.state ∧
    (handle_monster_attack s).monster = s.monster ∧
    (handle_monster_attack s).hero.energy = s.hero.energy ∧
    (handle_monster_attack s).hero.max_energy = s.hero.max_energy ∧
    (handle_monster_attack s).hero.potion_bag = s.hero.potion_bag ∧
    (handle_monster_attack s).registered = s.registered ∧
    (handle_monster_attack s).showing_potions = s.showing_potions ∧
    (handle_monster_attack s).buttons = s.buttons := by
  unfold handle_monster_attack
  split
  · simp
  · split
    · simp
    · split
      · simp [Hero.take_damage]
      · simp

/-- Frame of start_monster_turn, inherited from handle_monster_attack. -/
theorem start_monster_turn_frame (s : BattleManager) :
    (start_monster_turn s).state = s.state ∧
    (start_monster_turn s).monster = s.monster ∧
    (start_monster_turn s).hero.energy = s.hero.energy ∧
    (start_monster_turn s).hero.max_energy = s.hero.max_energy ∧
    (start_monster_turn s).hero.potion_bag = s.hero.potion_bag := by
  unfold start_monster_turn
  split
  · exact ⟨(handle_monster_attack_frame s).1, (handle_monster_attack_frame s).2.1,
      (handle_monster_attack_frame s).2.2.1, (handle_monster_attack_frame s).2.2.2.1,
      (handle_monster_attack_frame s).2.2.2.2.1⟩
  · simp

/-- C3. The spec claims every battle-manager operation is exception-free
and every illegal-timing call (in particular a missing monster) is a silent
no-op; but update_battle_state polled on a freshly constructed manager —
no battle started yet, monster reference absent, hero alive — evaluates
`self.monster.is_alive()` on None and raises AttributeError, modelled here
as `Except.error ()`. Every sibling method guards the None case, so the
missing guard contradicts the documented tri-state return of the method:
the code, not the claim, is at fault. -/
theorem C3_update_battle_state_raises_on_missing_monster :
    update_battle_state (initBM heroW [] bmW) = Except.error () := rfl

/-- C5. On the monster's turn with a live monster, handle_monster_attack
applies exactly `max 0 (monster.damage - hero.potion_block)` to the hero's
hit points, and afterwards the pending block is 0 and the turn is back to
HERO_TURN. -/
theorem C5_monster_attack_damage (s : BattleManager) (m : Monster)
    (hm : s.monster = some m) (ha : m.is_alive = true)
    (ht : s.turn = TurnState.MONSTER_TURN) :
    (handle_monster_attack s).hero.current_hp
        = s.hero.current_hp - max 0 (m.damage - s.hero.potion_block) ∧
    (handle_monster_attack s).hero.potion_block = 0 ∧
    (handle_monster_attack s).turn = TurnState.HERO_TURN := by
  unfold handle_monster_attack
  rw [ht, hm]
  simp [ha, Hero.take_damage]

/-- C5 witness: the concrete monster-turn state against the ogre. -/
theorem C5_witness :
    stMT.monster = some ogreW ∧ ogreW.is_alive = true ∧
    stMT.turn = TurnState.MONSTER_TURN ∧
    ((handle_monster_attack stMT).hero.current_hp
        = stMT.hero.current_hp - max 0 (ogreW.damage - stMT.hero.potion_block) ∧
     (handle_monster_attack stMT).hero.potion_block = 0 ∧
     (handle_monster_attack stMT).turn = TurnState.HERO_TURN) :=
  ⟨by decide, by decide, by decide,
   C5_monster_attack_damage stMT ogreW (by decide) (by decide) (by decide)⟩

/-- C6. In the ability sub-state on the hero's turn with a live monster,
using a known ability whose cooldown is positive changes nothing about the
manager except appending exactly the cooldown message: the hero (hence the
energy), the turn and the battle sub-state are untouched. -/
theorem C6_cooldown_blocks_ability (s : BattleManager) (m : Monster)
    (a : Ability) (n : String)
    (ht : s.turn = TurnState.HERO_TURN) (hs : s.state = BattleState.USE_ABILITY)
    (hr : s.registered = true) (hm : s.monster = some m) (ha : m.is_alive = true)
    (hf : findAbility s.hero.abilities n = some a)
    (hc : 0 < a.current_cooldown) :
    (use_ability n s).hero = s.hero ∧
    (use_ability n s).hero.energy = s.hero.energy ∧
    (use_ability n s).turn = s.turn ∧
    (use_ability n s).state = s.state ∧
    (use_ability n s).battle_log = s.battle_log ++ [s!"{n} is still on cooldown!"] := by
  have hcu : a.can_use s.hero = false := by
    simp [Ability.can_use]
    omega
  unfold use_ability
  rw [ht, hs, hr, hm]
  simp [ha, hf, hcu]

/-- C6 witness: Fireball (cooldown 2) in the concrete ability-submenu state
against the live ogre. -/
theorem C6_witness :
    stUA.turn = TurnState.HERO_TURN ∧ stUA.state = BattleState.USE_ABILITY ∧
    stUA.registered = true ∧ stUA.monster = some ogreW ∧ ogreW.is_alive = true ∧
    findAbility stUA.hero.abilities "Fireball" = some fireballW ∧
    0 < fireballW.current_cooldown ∧
    ((use_ability "Fireball" stUA).hero = stUA.hero ∧
     (use_ability "Fireball" stUA).hero.energy = stUA.hero.energy ∧
     (use_ability "Fireball" stUA).turn = stUA.turn ∧
     (use_ability "Fireball" stUA).state = stUA.state ∧
     (use_ability "Fireball" stUA).battle_log
        = stUA.battle_log ++ ["Fireball is still on cooldown!"]) :=
  ⟨by decide, by decide, by decide, by decide, by decide, by decide, by decide,
   C6_cooldown_blocks_ability stUA ogreW fireballW "Fireball" (by decide) (by decide)
     (by decide) (by decide) (by decide) (by decide) (by decide)⟩

/-- C7. The cooldown check of use_ability precedes the energy check: an
ability that is both on cooldown and too expensive produces the cooldown
message, not the insufficient-energy message. -/
theorem C7_cooldown_checked_before_energy (s : BattleManager) (m : Monster)
    (a : Ability) (n : String)
    (ht : s.turn = TurnState.HERO_TURN) (hs : s.state = BattleState.USE_ABILITY)
    (hr : s.registered = true) (hm : s.monster = some m) (ha : m.is_alive = true)
    (hf : findAbility s.hero.abilities n = some a)
    (hc : 0 < a.current_cooldown) (he : s.hero.energy < a.energy_cost) :
    (use_ability n s).battle_log = s.battle_log ++ [s!"{n} is still on cooldown!"] := by
  have hcu : a.can_use s.hero = false := by
    simp [Ability.can_use]
    omega
  unfold use_ability
  rw [ht, hs, hr, hm]
  simp [ha, hf, hcu]

/-- C7 witness: Fireball is simultaneously on cooldown (2) and too
expensive (cost 10 against energy 5) in the concrete state, and the logged
line is the cooldown message. -/
theorem C7_witness :
    stUA.turn = TurnState.HERO_TURN ∧ stUA.state = BattleState.USE_ABILITY ∧
    stUA.registered = true ∧ stUA.monster = some ogreW ∧ ogreW.is_alive = true ∧
    findAbility stUA.hero.abilities "Fireball" = some fireballW ∧
    0 < fireballW.current_cooldown ∧ stUA.hero.energy < fireballW.energy_cost ∧
    (use_ability "Fireball" stUA).battle_log
        = stUA.battle_log ++ ["Fireball is still on cooldown!"] :=
  ⟨by decide, by decide, by decide, by decide, by decide, by decide, by decide,
   by decide,
   C7_cooldown_checked_before_energy stUA ogreW fireballW "Fireball" (by decide)
     (by decide) (by decide) (by decide) (by decide) (by decide) (by decide)
     (by decide)⟩

/-- C8. The first update_battle_state poll that sees a living hero and a
dead monster reports the defeat, grants experience then gold exactly as
hero.py does, and enters MONSTER_DEFEATED; from any MONSTER_DEFEATED state
every later poll returns `(none, unchanged)`, so the reward is granted at
most once per encounter. -/
theorem C8_defeat_detected_once (s : BattleManager) (m : Monster)
    (hs : s.state ≠ BattleState.MONSTER_DEFEATED)
    (hm : s.monster = some m) (hh : s.hero.is_alive = true)
    (hd : m.is_alive = false) :
    update_battle_state s = Except.ok (some true, handle_monster_defeat s) ∧
    (handle_monster_defeat s).state = BattleState.MONSTER_DEFEATED ∧
    (handle_monster_defeat s).hero
        = (s.hero.gain_experience m.experience).add_gold m.gold ∧
    (∀ t : BattleManager, t.state = BattleState.MONSTER_DEFEATED →
        update_battle_state t = Except.ok (none, t)) := by
  refine ⟨?_, ?_, ?_, ?_⟩
  · unfold update_battle_state
    rw [hh]
    simp [hs, hm, hd]
  · unfold handle_monster_defeat
    rw [hm]
  · unfold handle_monster_defeat
    rw [hm]
  · intro t htd
    unfold update_battle_state
    rw [htd]
    simp

/-- C8 witness: the concrete state holding the already-dead goblin. -/
theorem C8_witness :
    stDead.state ≠ BattleState.MONSTER_DEFEATED ∧
    stDead.monster = some { goblinW with health := 0 } ∧
    stDead.hero.is_alive = true ∧
    Monster.is_alive { goblinW with health := 0 } = false ∧
    (update_battle_state stDead
        = Except.ok (some true, handle_monster_defeat stDead) ∧
     (handle_monster_defeat stDead).state = BattleState.MONSTER_DEFEATED ∧
     (handle_monster_defeat stDead).hero
        = (stDead.hero.gain_experience goblinW.experience).add_gold goblinW.gold ∧
     (∀ t : BattleManager, t.state = BattleState.MONSTER_DEFEATED →
        update_battle_state t = Except.ok (none, t))) :=
  ⟨by decide, by decide, by decide, by decide,
   C8_defeat_detected_once stDead { goblinW with health := 0 } (by decide)
     (by decide) (by decide) (by decide)⟩

/-- C10. While no button manager has been registered, handle_ability,
handle_use_potion, use_potion and use_ability are complete no-ops (no state
change, no log line), while handle_rest and handle_flee do not consult the
stored reference and still act on the hero's turn: rest returns to HOME and
restores the energy, flee succeeds and enters RUN_AWAY. -/
theorem C10_unregistered_handlers (s : BattleManager) (n : String)
    (oname : Option String) (hr : s.registered = false) :
    handle_ability oname s = s ∧
    handle_use_potion s = s ∧
    use_potion n s = s ∧
    use_ability n s = s ∧
    (s.turn = TurnState.HERO_TURN →
      (handle_rest s).state = BattleState.HOME ∧
      (handle_rest s).hero.energy = s.hero.max_energy ∧
      handle_flee s = (true, { s with state := BattleState.RUN_AWAY })) := by
  refine ⟨?_, ?_, ?_, ?_, ?_⟩
  · unfold handle_ability
    simp [hr]
  · unfold handle_use_potion
    simp [hr]
  · unfold use_potion
    simp [hr]
  · unfold use_ability
    simp [hr]
  · intro ht
    refine ⟨?_, ?_, ?_⟩
    · unfold handle_rest
      rw [ht]
      simp
      split
      · exact (start_monster_turn_frame _).1
      · rfl
    · unfold handle_rest
      rw [ht]
      simp
      split
      · exact ((start_monster_turn_frame _).2.2.1).trans (by simp [Hero.rest])
      · simp [Hero.rest]
    · unfold handle_flee
      rw [ht]
      simp

/-- Hero.use_potion is the identity when the named slot holds a zero
count. -/
theorem hero_use_potion_empty (h : Hero) (n : String)
    (h0 : bagLookup h.potion_bag n = some 0) :
    h.use_potion n = h := by
  unfold Hero.use_potion
  rw [h0]
  simp

/-- C2 counterexample: in the concrete potion-submenu state with an empty
health-potion slot, use_potion does mutate state — the sub-state leaves
USE_ITEM and the hero loses hit points to the monster's answer — refuting
the claimed no-mutation behaviour. -/
theorem C2_counterexample :
    (use_potion "Health Potion" stEmptyPotion).state ≠ stEmptyPotion.state ∧
    (use_potion "Health Potion" stEmptyPotion).hero.current_hp
        ≠ stEmptyPotion.hero.current_hp := by decide

/-- C2 amended: on the hero's turn in USE_ITEM with a registered button
manager, use_potion on an empty slot leaves the hero itself untouched by
the potion step (inventory and energy in particular are unchanged) and
raises no exception, but it still appends the generic usage line, hides the
potion buttons, returns the sub-state to HOME and hands the turn to the
monster, which is resolved at once when alive. -/
theorem C2_empty_potion_consumes_turn (s : BattleManager) (n : String)
    (ht : s.turn = TurnState.HERO_TURN) (hs : s.state = BattleState.USE_ITEM)
    (hr : s.registered = true) (h0 : bagLookup s.hero.potion_bag n = some 0) :
    (use_potion n s =
      (let hn := s.hero.name
       let s2 := { s with battle_log := s.battle_log ++ [s!"{hn} used a {n}!"] }
       let s3 := toggle_potion_buttons s2 false
       let s4 := { s3 with state := BattleState.HOME, turn := TurnState.MONSTER_TURN }
       if monsterAlive s4 then start_monster_turn s4 else s4)) ∧
    (use_potion n s).hero.potion_bag = s.hero.potion_bag ∧
    (use_potion n s).hero.energy = s.hero.energy ∧
    (use_potion n s).state = BattleState.HOME := by
  have hid := hero_use_potion_empty s.hero n h0
  have heq : use_potion n s =
      (let hn := s.hero.name
       let s2 := { s with battle_log := s.battle_log ++ [s!"{hn} used a {n}!"] }
       let s3 := toggle_potion_buttons s2 false
       let s4 := { s3 with state := BattleState.HOME, turn := TurnState.MONSTER_TURN }
       if monsterAlive s4 then start_monster_turn s4 else s4) := by
    unfold use_potion
    rw [ht, hs, hr]
    simp [hid]
  refine ⟨heq, ?_, ?_, ?_⟩ <;> rw [heq] <;> simp only [] <;> split
  · exact ((start_monster_turn_frame _).2.2.2.2).trans (by simp [toggle_potion_buttons])
  · simp [toggle_potion_buttons]
  · exact ((start_monster_turn_frame _).2.2.1).trans (by simp [toggle_potion_buttons])
  · simp [toggle_potion_buttons]
  · exact (start_monster_turn_frame _).1
  · rfl

/-- C2 witness: the concrete empty-slot state against the live ogre. -/
theorem C2_witness :
    stEmptyPotion.turn = TurnState.HERO_TURN ∧
    stEmptyPotion.state = BattleState.USE_ITEM ∧
    stEmptyPotion.registered = true ∧
    bagLookup stEmptyPotion.hero.potion_bag "Health Potion" = some 0 ∧
    ((use_potion "Health Potion" stEmptyPotion).hero.potion_bag
        = stEmptyPotion.hero.potion_bag ∧
     (use_potion "Health Potion" stEmptyPotion).hero.energy
        = stEmptyPotion.hero.energy ∧
     (use_potion "Health Potion" stEmptyPotion).state = BattleState.HOME) :=
  ⟨by decide, by decide, by decide, by decide,
   (C2_empty_potion_consumes_turn stEmptyPotion "Health Potion" (by decide)
      (by decide) (by decide) (by decide)).2⟩

/-- After start_monster_turn from a state already on the monster's turn,
a remaining MONSTER_TURN implies the monster is absent or dead. -/
theorem resolve_monster_turn (s : BattleManager)
    (h : s.turn = TurnState.MONSTER_TURN) :
    (start_monster_turn s).turn = TurnState.MONSTER_TURN →
      monsterAlive (start_monster_turn s) = false := by
  unfold start_monster_turn
  cases hma : monsterAlive s
  · simp
    intro _
    exact hma
  · rcases hm : s.monster with _ | m
    · simp [monsterAlive, hm] at hma
    · have hal : m.is_alive = true := by simpa [monsterAlive, hm] using hma
      unfold handle_monster_attack
      rw [h, hm]
      simp [hal]

/-- C4 counterexample: the killing blow — Slash against the one-hit-point
goblin — returns from use_ability with the turn still at MONSTER_TURN,
refuting the claim that the turn is always back at HERO_TURN when a hero
action handler returns. -/
theorem C4_counterexample :
    (use_ability "Slash" stKill).turn = TurnState.MONSTER_TURN := by decide

/-- C4 amended: when use_ability, use_potion or handle_rest is called on
the hero's turn, the handler returns with turn == MONSTER_TURN only when
the monster is absent or dead; whenever the monster is alive at return, its
turn was resolved synchronously and the turn is back at HERO_TURN. -/
theorem C4_turn_resolved_when_monster_alive (s : BattleManager) (n : String)
    (ht : s.turn = TurnState.HERO_TURN) :
    ((use_ability n s).turn = TurnState.MONSTER_TURN →
        monsterAlive (use_ability n s) = false) ∧
    ((use_potion n s).turn = TurnState.MONSTER_TURN →
        monsterAlive (use_potion n s) = false) ∧
    ((handle_rest s).turn = TurnState.MONSTER_TURN →
        monsterAlive (handle_rest s) = false) := by
  refine ⟨?_, ?_, ?_⟩
  · unfold use_ability
    split
    · rw [ht]
      intro hc
      exact absurd hc (by decide)
    · split
      · rw [ht]
        intro hc
        exact absurd hc (by decide)
      · split
        · rw [ht]
          intro hc
          exact absurd hc (by decide)
        · split
          · rw [ht]
            intro hc
            exact absurd hc (by decide)
          · split
            · rw [ht]
              intro hc
              exact absurd hc (by decide)
            · split
              · rw [ht]
                intro hc
                exact absurd hc (by decide)
              · dsimp only
                split
                · exact resolve_monster_turn _ rfl
                · rename_i hal
                  intro _
                  simpa [monsterAlive] using hal
  · unfold use_potion
    split
    · rw [ht]
      intro hc
      exact absurd hc (by decide)
    · dsimp only
      split
      · exact resolve_monster_turn _ rfl
      · rename_i hma
        intro _
        simpa using hma
  · unfold handle_rest
    split
    · rw [ht]
      intro hc
      exact absurd hc (by decide)
    · dsimp only
      split
      · exact resolve_monster_turn _ rfl
      · rename_i hma
        intro _
        simpa using hma

/-- C4 witness: the concrete ability-submenu state against the live ogre,
on the hero's turn. -/
theorem C4_witness :
    stUA.turn = TurnState.HERO_TURN ∧
    (((use_ability "Slash" stUA).turn = TurnState.MONSTER_TURN →
        monsterAlive (use_ability "Slash" stUA) = false) ∧
     ((use_potion "Slash" stUA).turn = TurnState.MONSTER_TURN →
        monsterAlive (use_potion "Slash" stUA) = false) ∧
     ((handle_rest stUA).turn = TurnState.MONSTER_TURN →
        monsterAlive (handle_rest stUA) = false)) :=
  ⟨by decide, C4_turn_resolved_when_monster_alive stUA "Slash" (by decide)⟩

/-- C1 counterexample: polling update_button_states in a state where it is
the monster's turn and the monster is alive is not a pure recomputation —
it runs the monster's attack: the hero loses hit points, the battle log
grows and the turn flips, refuting the claimed frame and idempotence for
arbitrary states. -/
theorem C1_counterexample :
    (update_button_states stMT).hero.current_hp ≠ stMT.hero.current_hp ∧
    (update_button_states stMT).turn ≠ stMT.turn ∧
    (update_button_states stMT).battle_log.length ≠ stMT.battle_log.length := by
  decide

/-- C1 amended: in every state except the unresolved-monster-turn states
(turn == MONSTER_TURN with a live monster — never observable through the
public API, whose handlers resolve the monster turn before returning),
update_button_states leaves the turn, battle sub-state, monster, battle log
and hero untouched, and calling it twice from the same state gives the same
result as calling it once; with a live monster on the monster's turn it
instead runs start_monster_turn. -/
theorem C1_update_button_states_pure (s : BattleManager)
    (h : ¬ (s.turn = TurnState.MONSTER_TURN ∧ monsterAlive s = true)) :
    (update_button_states s).turn = s.turn ∧
    (update_button_states s).state = s.state ∧
    (update_button_states s).monster = s.monster ∧
    (update_button_states s).battle_log = s.battle_log ∧
    (update_button_states s).hero = s.hero ∧
    update_button_states (update_button_states s) = update_button_states s := by
  have hma : s.turn = TurnState.MONSTER_TURN → monsterAlive s = false := by
    intro hmt
    cases hmon : monsterAlive s
    · rfl
    · exact absurd ⟨hmt, hmon⟩ h
  cases htn : s.turn with
  | HERO_TURN =>
    rcases hst : s.state <;>
      cases hhp : s.hero.has_potions <;>
        simp [update_button_states, hst, htn, hhp, toggle_potion_buttons,
          toggle_ability_buttons, update_ability_button_states,
          Button.lock, Button.unlock, Button.showButton, Button.hideButton]
  | MONSTER_TURN =>
    have hmf : monsterAlive s = false := hma htn
    rcases hm : s.monster with _ | m
    · rcases hst : s.state <;>
        simp [update_button_states, hst, htn, hm, monsterAlive, start_monster_turn,
          toggle_potion_buttons, toggle_ability_buttons, update_ability_button_states,
          Button.lock, Button.unlock, Button.showButton, Button.hideButton]
    · have ham : m.is_alive = false := by simpa [monsterAlive, hm] using hmf
      rcases hst : s.state <;>
        simp [update_button_states, hst, htn, hm, ham, monsterAlive, start_monster_turn,
          toggle_potion_buttons, toggle_ability_buttons, update_ability_button_states,
          Button.lock, Button.unlock, Button.showButton, Button.hideButton]

/-- C1 witness: a freshly constructed manager on the hero's turn. -/
theorem C1_witness :
    ¬ ((initBM heroW [] bmW).turn = TurnState.MONSTER_TURN ∧
       monsterAlive (initBM heroW [] bmW) = true) ∧
    ((update_button_states (initBM heroW [] bmW)).turn
        = (initBM heroW [] bmW).turn ∧
     (update_button_states (initBM heroW [] bmW)).state
        = (initBM heroW [] bmW).state ∧
     (update_button_states (initBM heroW [] bmW)).monster
        = (initBM heroW [] bmW).monster ∧
     (update_button_states (initBM heroW [] bmW)).battle_log
        = (initBM heroW [] bmW).battle_log ∧
     (update_button_states (initBM heroW [] bmW)).hero
        = (initBM heroW [] bmW).hero ∧
     update_button_states (update_button_states (initBM heroW [] bmW))
        = update_button_states (initBM heroW [] bmW)) :=
  ⟨by decide, C1_update_button_states_pure (initBM heroW [] bmW) (by decide)⟩

/-- Liveness of the stored monster depends only on the monster field. -/
theorem monsterAlive_of_eq (s t : BattleManager) (h : t.monster = s.monster) :
    monsterAlive t = monsterAlive s := by
  unfold monsterAlive
  rw [h]

/-- BMInv only reads the state, monster and turn fields. -/
theorem bminv_transfer (s t : BattleManager) (h1 : t.state = s.state)
    (h2 : t.monster = s.monster) (h3 : t.turn = s.turn) (hi : BMInv s) : BMInv t := by
  refine ⟨?_, ?_⟩
  · intro hmd
    rw [h1] at hmd
    rcases hi.1 hmd with ⟨hx, hy⟩
    exact ⟨(monsterAlive_of_eq s t h2).trans hx, by rw [h2]; exact hy⟩
  · intro m hm hd
    rw [h2] at hm
    rw [h3]
    exact hi.2 m hm hd

/-- BMInv holds for a freshly constructed manager. -/
theorem bminv_init (h : Hero) (log : List String) (b : ButtonManager) :
    BMInv (initBM h log b) := by
  refine ⟨?_, ?_⟩
  · intro hmd
    simp [initBM] at hmd
  · intro m hm
    simp [initBM] at hm

/-- BMInv is preserved by starting a fresh encounter (live monster). -/
theorem bminv_start_battle (m : Monster) (hm : m.is_alive = true)
    (s : BattleManager) (_hi : BMInv s) : BMInv (start_battle m s) := by
  refine ⟨?_, ?_⟩
  · intro hmd
    simp [start_battle] at hmd
  · intro m2 hm2 hd
    simp [start_battle] at hm2
    rw [← hm2] at hd
    rw [hd] at hm
    cases hm

/-- BMInv is preserved by handle_monster_attack. -/
theorem bminv_attack (s : BattleManager) (hi : BMInv s) :
    BMInv (handle_monster_attack s) := by
  unfold handle_monster_attack
  split
  · exact hi
  · split
    · exact hi
    · rename_i m hm
      split
      · rename_i hal
        refine ⟨?_, ?_⟩
        · intro hmd
          dsimp at hmd
          rcases hi.1 hmd with ⟨hx, _⟩
          simp [monsterAlive, hm] at hx
          simp [hx] at hal
        · intro m2 hm2 hd
          dsimp at hm2
          rw [hm] at hm2
          rw [← Option.some.inj hm2] at hd
          simp [hd] at hal
      · exact hi

/-- With a live monster outside MONSTER_DEFEATED, resolving the monster
turn yields an invariant state: the sub-state is untouched and the monster
stays alive, so both invariant clauses are vacuous. -/
theorem bminv_resolve (s : BattleManager)
    (hs : s.state ≠ BattleState.MONSTER_DEFEATED)
    (hma : monsterAlive s = true) :
    BMInv (start_monster_turn s) := by
  rcases hm : s.monster with _ | m
  · simp [monsterAlive, hm] at hma
  · have hal : m.is_alive = true := by simpa [monsterAlive, hm] using hma
    refine ⟨?_, ?_⟩
    · intro hmd
      rw [(start_monster_turn_frame s).1] at hmd
      exact absurd hmd hs
    · intro m2 hm2 hd
      rw [(start_monster_turn_frame s).2.1, hm] at hm2
      rw [← Option.some.inj hm2] at hd
      rw [hd] at hal
      cases hal

/-- BMInv is preserved by an update_battle_state poll. -/
theorem bminv_poll (s : BattleManager) (hi : BMInv s) : BMInv (updPoll s) := by
  by_cases hmd : s.state = BattleState.MONSTER_DEFEATED
  · simp [updPoll, update_battle_state, hmd]
    exact hi
  · cases hh : s.hero.is_alive
    · simp [updPoll, update_battle_state, hmd, hh]
      exact hi
    · rcases hm : s.monster with _ | m
      · simp [updPoll, update_battle_state, hmd, hh, hm]
        exact hi
      · cases hal : m.is_alive
        · have htn : s.turn = TurnState.MONSTER_TURN := hi.2 m hm hal
          simp [updPoll, update_battle_state, hmd, hh, hm, hal]
          unfold handle_monster_defeat
          rw [hm]
          refine ⟨?_, ?_⟩
          · intro _
            refine ⟨?_, by simp [hm]⟩
            simp [monsterAlive, hm, hal]
          · intro m2 hm2 hd
            dsimp at hm2 ⊢
            exact htn
        · simp [updPoll, update_battle_state, hmd, hh, hm, hal]
          exact hi

/-- The battle sub-state and the monster are untouched by
update_button_states. -/
theorem ubs_state_monster (s : BattleManager) :
    (update_button_states s).state = s.state ∧
    (update_button_states s).monster = s.monster := by
  rcases hst : s.state <;> cases htn : s.turn <;>
    cases hhp : s.hero.has_potions <;>
      rcases hm : s.monster with _ | m
  all_goals
    try (cases hal : m.is_alive)
  all_goals
    simp [update_button_states, hst, htn, hhp, hm, monsterAlive,
      start_monster_turn, handle_monster_attack, toggle_potion_buttons,
      toggle_ability_buttons, update_ability_button_states,
      Button.lock, Button.unlock, Button.showButton, Button.hideButton]
  all_goals
    simp [hal]

/-- The turn is untouched by update_button_states whenever no live monster
is waiting on the monster turn. -/
theorem ubs_turn_no_attack (s : BattleManager)
    (h : s.turn = TurnState.HERO_TURN ∨ monsterAlive s = false) :
    (update_button_states s).turn = s.turn := by
  cases htn : s.turn with
  | HERO_TURN =>
    rcases hst : s.state <;> cases hhp : s.hero.has_potions <;>
      simp [update_button_states, hst, htn, hhp, toggle_potion_buttons,
        toggle_ability_buttons, update_ability_button_states,
        Button.lock, Button.unlock, Button.showButton, Button.hideButton]
  | MONSTER_TURN =>
    have hmf : monsterAlive s = false := by
      rcases h with h | h
      · rw [htn] at h
        cases h
      · exact h
    rcases hm : s.monster with _ | m
    · rcases hst : s.state <;>
        simp [update_button_states, hst, htn, hm, monsterAlive, start_monster_turn,
          toggle_potion_buttons, toggle_ability_buttons, update_ability_button_states,
          Button.lock, Button.unlock, Button.showButton, Button.hideButton]
    · have ham : m.is_alive = false := by simpa [monsterAlive, hm] using hmf
      rcases hst : s.state <;>
        simp [update_button_states, hst, htn, hm, ham, monsterAlive, start_monster_turn,
          toggle_potion_buttons, toggle_ability_buttons, update_ability_button_states,
          Button.lock, Button.unlock, Button.showButton, Button.hideButton]

/-- BMInv is preserved by update_button_states. -/
theorem bminv_buttons (s : BattleManager) (hi : BMInv s) :
    BMInv (update_button_states s) := by
  have hub := ubs_state_monster s
  refine ⟨?_, ?_⟩
  · intro hmd
    rw [hub.1] at hmd
    rcases hi.1 hmd with ⟨hx, hy⟩
    exact ⟨(monsterAlive_of_eq s _ hub.2).trans hx, by rw [hub.2]; exact hy⟩
  · intro m hm hd
    rw [hub.2] at hm
    have hman : monsterAlive s = false := by simp [monsterAlive, hm, hd]
    rw [ubs_turn_no_attack s (Or.inr hman)]
    exact hi.2 m hm hd

/-- BMInv is preserved by use_ability. -/
theorem bminv_use_ability (n : String) (s : BattleManager) (hi : BMInv s) :
    BMInv (use_ability n s) := by
  unfold use_ability
  split
  · exact hi
  · split
    · exact hi
    · rename_i m hm
      split
      · exact hi
      · split
        · exact bminv_transfer s _ rfl rfl rfl hi
        · split
          · exact bminv_transfer s _ rfl rfl rfl hi
          · split
            · exact bminv_transfer s _ rfl rfl rfl hi
            · dsimp only
              split
              · rename_i hm1
                refine bminv_resolve _ (by simp) ?_
                simpa [monsterAlive] using hm1
              · rename_i hm1
                refine ⟨?_, ?_⟩
                · intro hmd
                  simp at hmd
                · intro m2 hm2 hd
                  rfl

/-- BMInv is preserved by handle_ability. -/
theorem bminv_handle_ability (oname : Option String) (s : BattleManager)
    (hi : BMInv s) : BMInv (handle_ability oname s) := by
  unfold handle_ability
  split
  · exact hi
  · split
    · exact bminv_use_ability _ s hi
    · split
      · refine ⟨?_, ?_⟩
        · intro hmd
          simp [toggle_ability_buttons, update_ability_button_states] at hmd
        · intro m hm hd
          simp [toggle_ability_buttons, update_ability_button_states] at hm ⊢
          exact hi.2 m hm hd
      · refine ⟨?_, ?_⟩
        · intro hmd
          simp [toggle_ability_buttons, update_ability_button_states] at hmd
        · intro m hm hd
          simp [toggle_ability_buttons, update_ability_button_states] at hm ⊢
          exact hi.2 m hm hd

/-- BMInv is preserved by handle_rest. -/
theorem bminv_handle_rest (s : BattleManager) (hi : BMInv s) :
    BMInv (handle_rest s) := by
  unfold handle_rest
  split
  · exact hi
  · dsimp only
    split
    · rename_i hma
      exact bminv_resolve _ (by simp) hma
    · refine ⟨?_, ?_⟩
      · intro hmd
        simp at hmd
      · intro m hm hd
        rfl

/-- BMInv is preserved by handle_use_potion. -/
theorem bminv_handle_use_potion (s : BattleManager) (hi : BMInv s) :
    BMInv (handle_use_potion s) := by
  unfold handle_use_potion
  split
  · exact hi
  · split
    · refine ⟨?_, ?_⟩
      · intro hmd
        simp [toggle_potion_buttons] at hmd
      · intro m hm hd
        simp [toggle_potion_buttons] at hm ⊢
        exact hi.2 m hm hd
    · refine ⟨?_, ?_⟩
      · intro hmd
        simp [update_potion_button_states, toggle_potion_buttons] at hmd
      · intro m hm hd
        simp [update_potion_button_states, toggle_potion_buttons] at hm ⊢
        exact hi.2 m hm hd

/-- BMInv is preserved by use_potion. -/
theorem bminv_use_potion (n : String) (s : BattleManager) (hi : BMInv s) :
    BMInv (use_potion n s) := by
  unfold use_potion
  split
  · exact hi
  · dsimp only
    split
    · rename_i hma
      exact bminv_resolve _ (by simp [toggle_potion_buttons]) hma
    · refine ⟨?_, ?_⟩
      · intro hmd
        simp [toggle_potion_buttons] at hmd
      · intro m hm hd
        rfl

/-- BMInv is preserved by handle_flee. -/
theorem bminv_handle_flee (s : BattleManager) (hi : BMInv s) :
    BMInv (handle_flee s).2 := by
  unfold handle_flee
  split
  · exact hi
  · rename_i hht
    have hht2 : s.turn = TurnState.HERO_TURN := by
      by_contra hx
      exact hht hx
    refine ⟨?_, ?_⟩
    · intro hmd
      simp at hmd
    · intro m hm hd
      dsimp at hm ⊢
      have := hi.2 m hm hd
      rw [hht2] at this
      cases this

/-- Every state reachable through the public API satisfies BMInv. -/
theorem reachable_bminv (s : BattleManager) (h : Reachable s) : BMInv s := by
  induction h with
  | init h log b => exact bminv_init h log b
  | step_start_battle m hm _ ih => exact bminv_start_battle m hm _ ih
  | step_poll _ ih => exact bminv_poll _ ih
  | step_update_buttons _ ih => exact bminv_buttons _ ih
  | step_handle_ability n _ ih => exact bminv_handle_ability n _ ih
  | step_handle_rest _ ih => exact bminv_handle_rest _ ih
  | step_handle_use_potion _ ih => exact bminv_handle_use_potion _ ih
  | step_use_potion n _ ih => exact bminv_use_potion n _ ih
  | step_use_ability n _ ih => exact bminv_use_ability n _ ih
  | step_handle_flee _ ih => exact bminv_handle_flee _ ih
  | step_monster_attack _ ih => exact bminv_attack _ ih

/-- C9. In every reachable state with battle_state == MONSTER_DEFEATED, all
six combat action handlers are inert: each returns the state unchanged (so
no combatant state changes, no turn is consumed, and the sub-state can only
leave MONSTER_DEFEATED through a fresh start_battle), and handle_flee
additionally reports failure. The reason is the reachability invariant: a
defeated encounter stores a dead monster and the turn is parked at
MONSTER_TURN, so every hero-turn guard fires. -/
theorem C9_monster_defeated_terminal (s : BattleManager) (hre : Reachable s)
    (hmd : s.state = BattleState.MONSTER_DEFEATED) (oname : Option String)
    (n : String) :
    handle_ability oname s = s ∧ use_ability n s = s ∧ handle_rest s = s ∧
    handle_use_potion s = s ∧ use_potion n s = s ∧
    handle_flee s = (false, s) := by
  have hi := reachable_bminv s hre
  rcases hi.1 hmd with ⟨hmf, hmn⟩
  rcases hm : s.monster with _ | m
  · exact absurd hm hmn
  · have hd : m.is_alive = false := by simpa [monsterAlive, hm] using hmf
    have htn : s.turn = TurnState.MONSTER_TURN := hi.2 m hm hd
    refine ⟨?_, ?_, ?_, ?_, ?_, ?_⟩
    · unfold handle_ability
      simp [htn]
    · unfold use_ability
      simp [htn]
    · unfold handle_rest
      simp [htn]
    · unfold handle_use_potion
      simp [htn]
    · unfold use_potion
      simp [htn]
    · unfold handle_flee
      simp [htn]

/-- C9 witness: the concrete post-victory state stDefeated, reached by a
full encounter (start, button refresh, submenu, killing blow, poll). -/
theorem C9_witness :
    Reachable stDefeated ∧ stDefeated.state = BattleState.MONSTER_DEFEATED ∧
    (handle_ability (some "Slash") stDefeated = stDefeated ∧
     use_ability "Slash" stDefeated = stDefeated ∧
     handle_rest stDefeated = stDefeated ∧
     handle_use_potion stDefeated = stDefeated ∧
     use_potion "Slash" stDefeated = stDefeated ∧
     handle_flee stDefeated = (false, stDefeated)) := by
  have rpath : Reachable stDefeated :=
    Reachable.step_poll (Reachable.step_use_ability "Slash"
      (Reachable.step_handle_ability none (Reachable.step_update_buttons
        (Reachable.step_start_battle goblinW (by decide)
          (Reachable.init heroW [] bmW)))))
  exact ⟨rpath, by decide,
    C9_monster_defeated_terminal stDefeated rpath (by decide) (some "Slash") "Slash"⟩

/-- C10 witness: a freshly constructed manager (nothing registered yet). -/
theorem C10_witness :
    (initBM heroW [] bmW).registered = false ∧
    (handle_ability (some "Slash") (initBM heroW [] bmW) = initBM heroW [] bmW ∧
     handle_use_potion (initBM heroW [] bmW) = initBM heroW [] bmW ∧
     use_potion "Health Potion" (initBM heroW [] bmW) = initBM heroW [] bmW ∧
     use_ability "Slash" (initBM heroW [] bmW) = initBM heroW [] bmW ∧
     ((initBM heroW [] bmW).turn = TurnState.HERO_TURN →
       (handle_rest (initBM heroW [] bmW)).state = BattleState.HOME ∧
       (handle_rest (initBM heroW [] bmW)).hero.energy
          = (initBM heroW [] bmW).hero.max_energy ∧
       handle_flee (initBM heroW [] bmW)
          = (true, { initBM heroW [] bmW with state := BattleState.RUN_AWAY }))) :=
  ⟨by decide,
   C10_unregistered_handlers (initBM heroW [] bmW) "Health Potion" (some "Slash")
     (by decide)⟩

end Game
